import Mathlib

/-!
Verification of the NFS shared-volume provisioning saga of sdc-vmapi
(workflows/nfs-volumes.js: the `provisionChain` tasks `provisionNfsVolumes`,
`waitForNfsVolumeProvisions`, `buildNfsVolumesMetadata`,
`setupUpdateVmNfsVolumesMetadataRequest`, and the helper
`waitForNfsVolumesMetadataUpdated`).

The JavaScript source is embedded shallowly:
- JSON-typed metadata values are the inductive `JSValue` (JavaScript
  `undefined` is represented by `Option.none` wherever a value may be absent);
- the external VOLAPI / VMAPI services are oracles passed in as functions,
  returning the `(err, result)` pair their node-style callbacks deliver;
- each workflow step is a pure function from its inputs and oracles to the
  ordered list of invocations of its completion callback (JavaScript lets a
  step invoke its callback more than once, and this source sometimes does,
  so a step's result is a *list* of invocations; the vasync pipeline driver
  acts on the first) together with the calls it issued to the services;
- the unbounded `setTimeout` polling loops take a fuel argument: a result of
  `none` means the loop is still polling after `fuel` fetches.
-/

/-- A JSON value as stored in a VM's `internal_metadata` and handled by
`JSON.parse` / `JSON.stringify`.  JavaScript `undefined` is not a `JSValue`:
an absent value is `Option.none` at each use site. -/
inductive JSValue : Type where
  | null : JSValue
  | bool (b : Bool) : JSValue
  | num (n : Int) : JSValue
  | str (s : String) : JSValue
  | arr (elems : List JSValue) : JSValue
  | obj (fields : List (String × JSValue)) : JSValue

/-- Property lookup on a JavaScript object literal (assoc list, first match;
the embeddings below never build an object with a repeated key). -/
def objLookup (fields : List (String × JSValue)) (k : String) : Option JSValue :=
  (fields.find? (fun kv => kv.1 = k)).map (·.2)

/-- JavaScript property assignment `o[k] = v` on an insertion-ordered object:
replaces the value at an existing key in place, else appends. -/
def objSet {α : Type} : List (String × α) → String → α → List (String × α)
  | [], k, v => [(k, v)]
  | (k', v') :: rest, k, v =>
    if k' = k then (k, v) :: rest else (k', v') :: objSet rest k v

/-- Property access `v.name` on an arbitrary JavaScript value: objects look the
key up, everything else (arrays included) has no such own property. -/
def jsGetProp : JSValue → String → Option JSValue
  | .obj fields, k => objLookup fields k
  | _, _ => none

/-- `typeof v === 'object'` in JavaScript is true of objects, arrays and
`null`; the source's element check `v === null || typeof v !== 'object'`
accepts exactly (non-null) objects and arrays. -/
def jsIsObjectLike : JSValue → Bool
  | .obj _ => true
  | .arr _ => true
  | _ => false

mutual
/-- JavaScript `String(v)` coercion, as used implicitly when a value is used
as a property key (`map[requiredVolume.name]`). -/
def jsToString : JSValue → String
  | .null => "null"
  | .bool b => if b then "true" else "false"
  | .num n => toString n
  | .str s => s
  | .arr es => String.intercalate "," (jsToStringArrayElems es)
  | .obj _ => "[object Object]"

/-- Elements of an array under `String(…)`: `null` prints as the empty
string, everything else by `jsToString`. -/
def jsToStringArrayElems : List JSValue → List String
  | [] => []
  | .null :: es => "" :: jsToStringArrayElems es
  | e :: es => jsToString e :: jsToStringArrayElems es
end

/-- JavaScript property-key coercion for a possibly-absent value:
`undefined` coerces to the string "undefined". -/
def propKey : Option JSValue → String
  | none => "undefined"
  | some v => jsToString v

/-- JSON string escaping as `JSON.stringify` performs it (the characters
exercised by this development: quote, backslash, and the common control
characters; other characters pass through unchanged). -/
def jsonEscapeChar (c : Char) : String :=
  if c = '"' then "\\\""
  else if c = '\\' then "\\\\"
  else if c = '\n' then "\\n"
  else if c = '\r' then "\\r"
  else if c = '\t' then "\\t"
  else c.toString

/-- Escape a whole string for inclusion in a JSON string literal. -/
def jsonEscape (s : String) : String :=
  String.join (s.data.map jsonEscapeChar)

mutual
/-- `JSON.stringify` on the value shapes this module serializes. -/
def jsonStringify : JSValue → String
  | .null => "null"
  | .bool b => if b then "true" else "false"
  | .num n => toString n
  | .str s => "\"" ++ jsonEscape s ++ "\""
  | .arr es => "[" ++ String.intercalate "," (jsonStringifyList es) ++ "]"
  | .obj fs => "\x7b" ++ String.intercalate "," (jsonStringifyFields fs) ++ "\x7d"

/-- `JSON.stringify` over the elements of an array. -/
def jsonStringifyList : List JSValue → List String
  | [] => []
  | v :: vs => jsonStringify v :: jsonStringifyList vs

/-- `JSON.stringify` over the fields of an object (insertion order). -/
def jsonStringifyFields : List (String × JSValue) → List String
  | [] => []
  | (k, v) :: fs =>
    ("\"" ++ jsonEscape k ++ "\":" ++ jsonStringify v) :: jsonStringifyFields fs
end

/-- An error delivered through a node-style callback.  `restCode` is the
service error code the source inspects (`VOLUME_ALREADY_EXISTS`); a plain
`new Error(msg)` has no `restCode`. -/
structure JsErr : Type where
  restCode : Option String
  message : String
deriving Repr, DecidableEq

/-- A created-volume record as returned by VOLAPI. -/
structure Volume : Type where
  uuid : String
  name : String
  owner_uuid : String
  state : String
  filesystem_path : String
deriving Repr, DecidableEq

/-- A VM network interface as found in `vm.nics`.  `nonObject` stands for an
entry whose `typeof` is not `'object'` (the source reports an error for it);
an object nic carries its optional `nic_tag` and `network_uuid`. -/
inductive Nic : Type where
  | nonObject : Nic
  | obj (nic_tag : Option String) (network_uuid : Option String) : Nic
deriving Repr, DecidableEq

/-- The slice of a VM record the saga reads.  `internal_metadata` is `none`
when the property is absent or not an object (the source treats the two the
same way: `!vm.internal_metadata || typeof(vm.internal_metadata) !== 'object'`). -/
structure VM : Type where
  uuid : String
  owner_uuid : String
  internal_metadata : Option (List (String × JSValue))
  nics : List Nic

/-- Parameters of a VOLAPI `createVolume` request as the source builds them.
`networks` is the result of `job.vm.nics.map(getOverlayNetwork)`:
`Array.prototype.map` yields one entry per nic, `undefined` (here `none`)
for every nic the callback returns nothing for. -/
structure CreateVolumeParams : Type where
  name : String
  owner_uuid : String
  type : String
  networks : List (Option String)
deriving Repr, DecidableEq

/-- A call issued to the storage-management service (VOLAPI). -/
inductive VolapiCall : Type where
  | createVolume (params : CreateVolumeParams) : VolapiCall
  | listVolumes (name : String) (owner_uuid : String) : VolapiCall
  | getVolume (uuid : String) (owner_uuid : String) : VolapiCall
deriving Repr, DecidableEq

/-- The storage-management service as an oracle: each operation returns the
`(err, result)` pair delivered to its node-style callback. -/
structure VolapiEnv : Type where
  createVolume : CreateVolumeParams → Option JsErr × Option Volume
  listVolumes : (name : String) → (owner_uuid : String) →
    Option JsErr × Option (List Volume)

/-- `t.indexOf('sdc_overlay/') === 0`: the tag starts with the overlay
marker (written over character lists so that it evaluates by structural
recursion). -/
def hasOverlayTagMarker (t : String) : Bool :=
  "sdc_overlay/".data.isPrefixOf t.data

/-- The value `getOverlayNetwork` (the `map` callback over `job.vm.nics`)
returns for one nic: the nic's `network_uuid` when its `nic_tag` is truthy
and starts with `sdc_overlay/`, else `undefined`. -/
def getOverlayNetworkValue : Nic → Option String
  | .nonObject => none
  | .obj nic_tag network_uuid =>
    match nic_tag with
    | some t => if t ≠ "" ∧ hasOverlayTagMarker t then network_uuid else none
    | none => none

/-- The `networks` list of the create request: `job.vm.nics.map(getOverlayNetwork)`. -/
def overlayNetworksOf (nics : List Nic) : List (Option String) :=
  nics.map getOverlayNetworkValue

/-- The callback invocations `getOverlayNetwork` itself performs: for every
nic whose `typeof` is not `'object'` it invokes the step callback with the
string `'network must be an object'` (and then `map` continues). -/
def overlayNetworkErrCbs (nics : List Nic) : List (Option JsErr × Option Volume) :=
  nics.filterMap (fun n =>
    match n with
    | .nonObject => some (some ⟨none, "network must be an object"⟩, none)
    | .obj _ _ => none)

/-- One run of `provisionNfsVolume(volumeName, callback)`: the VOLAPI calls
it issues, and the ordered invocations of `callback` as
`(err, createdVolume)` pairs.  On a `VOLUME_ALREADY_EXISTS` create error it
falls back to `listVolumes` by the same name and owner and must see exactly
one match; the guard `typeof volumeName !== 'string'` is vacuous here since
the input comes from `Object.keys` and is typed `String`. -/
def provisionNfsVolume (env : VolapiEnv) (nics : List Nic) (owner_uuid : String)
    (volumeName : String) :
    List VolapiCall × List (Option JsErr × Option Volume) :=
  let params : CreateVolumeParams :=
    ⟨volumeName, owner_uuid, "tritonnfs", overlayNetworksOf nics⟩
  let nicErrCbs := overlayNetworkErrCbs nics
  match env.createVolume params with
  | (some e, createdVolume) =>
    if e.restCode = some "VOLUME_ALREADY_EXISTS" then
      match env.listVolumes volumeName owner_uuid with
      | (none, some volumes) =>
        if volumes.length ≠ 1 then
          ([.createVolume params, .listVolumes volumeName owner_uuid],
           nicErrCbs ++ [(some ⟨none, "There must be either no or one volume with name "
             ++ volumeName ++ " for user " ++ owner_uuid⟩, none)])
        else
          ([.createVolume params, .listVolumes volumeName owner_uuid],
           nicErrCbs ++ [(none, volumes.head?)])
      | (none, none) =>
        ([.createVolume params, .listVolumes volumeName owner_uuid],
         nicErrCbs ++ [(some ⟨none, "There must be either no or one volume with name "
           ++ volumeName ++ " for user " ++ owner_uuid⟩, none)])
      | (some listVolumesErr, _) =>
        ([.createVolume params, .listVolumes volumeName owner_uuid],
         nicErrCbs ++ [(some listVolumesErr, none)])
    else
      ([.createVolume params], nicErrCbs ++ [(some e, createdVolume)])
  | (none, createdVolume) =>
    ([.createVolume params], nicErrCbs ++ [(none, createdVolume)])

/-- Result of the `loadRequiredNfsVolumes` pipeline function: the ordered
invocations of its callback (`some msg` = invoked with an `Error`, `none` =
invoked with a null error), and `ctx.mapRequiredNfsVolumes` when the function
reached the line that sets it. -/
structure LoadOutcome : Type where
  callbacks : List (Option String)
  mapRequired : Option (List (String × JSValue))

/-- The callback invocations the `parsedRequiredNfsVolumes.forEach` loop
performs: one error per element that is `null` or not `typeof 'object'`
(the `return` inside the loop body only skips that element). -/
def requiredVolumeElemCbs (elems : List JSValue) : List (Option String) :=
  elems.filterMap (fun e =>
    if jsIsObjectLike e then none else some (some "requiredVolume must be an object"))

/-- `mapRequiredNfsVolumes` as the `forEach` loop builds it: object-like
elements are stored under the property key `String(requiredVolume.name)`,
later elements with the same name overwriting earlier ones. -/
def buildMapRequiredNfsVolumes (elems : List JSValue) : List (String × JSValue) :=
  elems.foldl (fun m e =>
    if jsIsObjectLike e then objSet m (propKey (jsGetProp e "name")) e else m) []

/-- The `loadRequiredNfsVolumes` pipeline function.  `parse` is the
`JSON.parse` builtin as an oracle (`none` = it throws); `getVmErr` and
`getVmRes` are the `(err, vm)` pair `vmapi.getVm` delivers.  Note two
source quirks embedded faithfully: the `catch` block around `JSON.parse`
invokes the callback but does not return, so a string that does not parse
falls through to the `Array.isArray` check and the callback fires a second
time; and an absent or empty field leaves `parsedRequiredNfsVolumes`
undefined, which also fails the `Array.isArray` check. -/
def loadRequiredNfsVolumes (parse : String → Option JSValue)
    (getVmErr : Option String) (getVmRes : Option VM) (vmUuid : String) :
    LoadOutcome :=
  match getVmRes with
  | none => ⟨[some ("Could not get VM with uuid " ++ vmUuid)], none⟩
  | some vm =>
    match vm.internal_metadata with
    | none => ⟨[some "internal_metadata property missing from VM object"], none⟩
    | some meta =>
      match objLookup meta "docker:nfs_volumes_required" with
      | some (.str s) =>
        -- field present as a string; truthy (nonempty) strings are parsed
        if s = "" then
          ⟨[some "docker:nfs_volumes_required internal metadata must represent an array"],
           none⟩
        else
          match parse s with
          | none =>
            -- JSON.parse threw: the catch invokes the callback without
            -- returning, and the isArray check then fires it again
            ⟨[some "Could not parse docker:nfs_volumes_required internal metadata",
              some "docker:nfs_volumes_required internal metadata must represent an array"],
             none⟩
          | some (.arr elems) =>
            ⟨requiredVolumeElemCbs elems ++ [getVmErr],
             some (buildMapRequiredNfsVolumes elems)⟩
          | some _ =>
            ⟨[some "docker:nfs_volumes_required internal metadata must represent an array"],
             none⟩
      | some _ =>
        ⟨[some ("docker:nfs_volumes_required internal_metadata property must be a "
           ++ "string if present")], none⟩
      | none =>
        -- field absent: parsedRequiredNfsVolumes stays undefined and the
        -- Array.isArray check fails
        ⟨[some "docker:nfs_volumes_required internal metadata must represent an array"],
         none⟩

/-- Outcome of the `provisionRequiredNfsVolumes` pipeline function (its first
callback invocation): failure with the first error encountered, or success
with `ctx.createdVolumes` (volume uuid → record, insertion-ordered). -/
inductive ProvisionOutcome : Type where
  | failure (message : String) : ProvisionOutcome
  | success (createdVolumes : List (String × Volume)) : ProvisionOutcome
deriving Repr, DecidableEq

/-- The `provisionRequiredNfsVolumes` pipeline function: fans
`provisionNfsVolume` out over `Object.keys(ctx.mapRequiredNfsVolumes)` (all
calls are issued regardless of individual failures), then — on no error —
re-keys the operation results by `operationResult.uuid`.  Each operation's
result is its first callback invocation, which is what
`vasync.forEachParallel` records; a multi-error is represented by its first
member's message.  The guard on `ctx.mapRequiredNfsVolumes` being an object
is vacuous here (the input is typed). -/
def provisionRequiredNfsVolumes (env : VolapiEnv) (nics : List Nic)
    (owner_uuid : String) (mapRequired : List (String × JSValue)) :
    List VolapiCall × ProvisionOutcome :=
  let keys := mapRequired.map (·.1)
  if keys.length = 0 then
    ([], .success [])
  else
    let runs := keys.map (fun k => provisionNfsVolume env nics owner_uuid k)
    let calls := runs.flatMap (·.1)
    let operations : List (Option JsErr × Option Volume) :=
      runs.map (fun r => r.2.headD (none, none))
    match (operations.filterMap (·.1)).head? with
    | some e => (calls, .failure e.message)
    | none =>
      if operations.any (fun op => op.2.isNone) then
        (calls, .failure "operationResult must be an object")
      else
        (calls, .success (operations.foldl (fun m op =>
          match op.2 with
          | some v => objSet m v.uuid v
          | none => m) []))

/-- Outcome of the whole `provisionNfsVolumes` workflow task, i.e. of the
`vasync.pipeline` over `loadRequiredNfsVolumes` and
`provisionRequiredNfsVolumes`: on success `job.createdVolumes` is
`context.createdVolumes`. -/
inductive StepOutcome : Type where
  | failure (message : String) : StepOutcome
  | success (message : String) (createdVolumes : List (String × Volume)) : StepOutcome
deriving Repr, DecidableEq

/-- The `provisionNfsVolumes` workflow task: runs the two pipeline functions,
aborting on the first function's first callback invocation being an error
(vasync acts on the first invocation; JavaScript stringifies the wrapped
`Error` with an `Error: ` prefix to build the failure message).  The
`(some vm, some none)` pattern is the only way the pipeline proceeds. -/
def provisionNfsVolumesStep (parse : String → Option JSValue) (env : VolapiEnv)
    (getVmErr : Option String) (getVmRes : Option VM) (vmUuid owner_uuid : String) :
    List VolapiCall × StepOutcome :=
  let load := loadRequiredNfsVolumes parse getVmErr getVmRes vmUuid
  match getVmRes, load.callbacks.head? with
  | some vm, some none =>
    let r := provisionRequiredNfsVolumes env vm.nics owner_uuid (load.mapRequired.getD [])
    (r.1,
     match r.2 with
     | .failure e => .failure ("Could not provision volumes, reason: Error: " ++ e)
     | .success createdVolumes => .success "All volumes provisioned" createdVolumes)
  | _, some (some e) =>
    ([], .failure ("Could not provision volumes, reason: Error: " ++ e))
  | _, _ =>
    -- unreachable: loadRequiredNfsVolumes always invokes its callback, and
    -- its first invocation is an error whenever getVm returned no VM
    ([], .failure "Could not provision volumes, reason: Error: ")

/-- An event of a polling loop: one fetch attempt (numbered), or one
`setTimeout` park of the given number of milliseconds. -/
inductive PollEvent : Type where
  | fetch (i : Nat) : PollEvent
  | sleep (ms : Nat) : PollEvent
deriving Repr, DecidableEq

/-- How a readiness poll loop invoked `done`: with the fetch error, or with
no error after storing the ready volume. -/
inductive PollStop : Type where
  | fetchError (e : JsErr) : PollStop
  | ready (v : Volume) : PollStop
deriving Repr, DecidableEq

/-- The body of one iteration of the `checkVolumeReady` polling loop of
`waitForNfsVolumeProvisions`, over the `(err, volume)` pair one
`volapi.getVolume` call delivered.  Faithful to the source order: a fetch
error invokes `done(getVolumeErr)` at once; a fetched volume in state
`ready` invokes `done()`; anything else falls through to
`setTimeout(checkVolumeReady, 1000)` (`none`). -/
def checkVolumeReadyStep (r : Option JsErr × Option Volume) : Option PollStop :=
  match r with
  | (some e, _) => some (.fetchError e)
  | (none, some v) => if v.state = "ready" then some (.ready v) else none
  | (none, none) => none

/-- The `checkVolumeReady` polling loop, run against the fetch sequence
`fetch` (the results of the successive `volapi.getVolume` calls) from fetch
index `i` with `fuel` remaining fetches: on `some stop` the loop invokes
`done` and ends; on `none` it parks 1000 ms and refetches.  An overall
result of `none` means the loop is still polling after `fuel` fetches —
the source has no bound, so `done` was not invoked yet. -/
def runCheckVolumeReady (fetch : Nat → Option JsErr × Option Volume) :
    Nat → Nat → List PollEvent × Option PollStop
  | 0, _ => ([], none)
  | fuel + 1, i =>
    match checkVolumeReadyStep (fetch i) with
    | some stop => ([.fetch i], some stop)
    | none =>
      let rest := runCheckVolumeReady fetch fuel (i + 1)
      (.fetch i :: .sleep 1000 :: rest.1, rest.2)

/-- Outcome of a waiting workflow task (its callback invocation). -/
inductive WaitOutcome : Type where
  | failure (message : String) : WaitOutcome
  | success (message : String) : WaitOutcome
deriving Repr, DecidableEq

/-- The guard `job.requiredNfsVolumes !== undefined &&
!Array.isArray(job.requiredNfsVolumes)` at the top of
`waitForNfsVolumeProvisions`. -/
def requiredNfsVolumesBad : Option JSValue → Bool
  | none => false
  | some (.arr _) => false
  | some _ => true

/-- The `waitForNfsVolumeProvisions` workflow task.  `fetchFor k` is the
`getVolume` result sequence for the volume keyed `k` in
`job.createdVolumes`; each key runs its own `checkVolumeReady` loop (fanned
out by `vasync.forEachParallel`; the loops write disjoint keys, so the fold
below in key order produces the same final map).  Returns the VOLAPI calls
issued, the final `job.createdVolumes` (each completed loop stored its ready
volume under `volume.uuid`), and the task callback invocation — `none` when
some loop is still polling after `fuel` fetches, in which case
`forEachParallel` has not called back.  The guard on `nfsVolumeUuid` being a
string is vacuous here (keys are typed `String`). -/
def waitForNfsVolumeProvisions
    (fetchFor : String → Nat → Option JsErr × Option Volume) (fuel : Nat)
    (owner_uuid : String) (requiredNfsVolumes : Option JSValue)
    (createdVolumes : List (String × Volume)) :
    List VolapiCall × List (String × Volume) × Option WaitOutcome :=
  if requiredNfsVolumesBad requiredNfsVolumes then
    ([], createdVolumes,
     some (.failure "job.requiredNfsVolumes must be an array if present"))
  else if createdVolumes.length = 0 then
      ([], createdVolumes, some (.success "No required NFS volume to wait for"))
    else
      let keys := createdVolumes.map (·.1)
      let loops := keys.map (fun k => (k, runCheckVolumeReady (fetchFor k) fuel 0))
      let calls := loops.flatMap (fun kl =>
        kl.2.1.filterMap (fun ev =>
          match ev with
          | .fetch _ => some (VolapiCall.getVolume kl.1 owner_uuid)
          | .sleep _ => none))
      let newMap := loops.foldl (fun m kl =>
        match kl.2.2 with
        | some (.ready v) => objSet m v.uuid v
        | _ => m) createdVolumes
      if loops.all (fun kl => kl.2.2.isSome) then
        if loops.any (fun kl =>
            match kl.2.2 with
            | some (.fetchError _) => true
            | _ => false) then
          (calls, newMap,
           some (.failure "Could not determine if all required volumes are ready"))
        else
          (calls, newMap, some (.success "All required volumes ready"))
      else
        (calls, newMap, none)

/-- A heap of metadata mappings, used to make the aliasing behaviour of
`buildNfsVolumesMetadata` observable: `job.vm.internal_metadata` is a
reference into this heap, and `jsprim.deepCopy` allocates a fresh cell.
Cells at addresses `≥ next` are unallocated. -/
structure MetaHeap : Type where
  cells : Nat → List (String × JSValue)
  next : Nat

/-- Allocate a fresh cell holding a deep copy of the cell at `a`
(`jsprim.deepCopy`): returns the new heap and the copy's address. -/
def MetaHeap.deepCopy (h : MetaHeap) (a : Nat) : MetaHeap × Nat :=
  (⟨fun i => if i = h.next then h.cells a else h.cells i, h.next + 1⟩, h.next)

/-- In-place mutation `cell[k] = v` of the metadata mapping at address `a`. -/
def MetaHeap.setKey (h : MetaHeap) (a : Nat) (k : String) (v : JSValue) : MetaHeap :=
  ⟨fun i => if i = a then objSet (h.cells i) k v else h.cells i, h.next⟩

/-- The inputs `buildNfsVolumesMetadata` reads from the job:
`job.vm.internal_metadata` as a heap address, and the two mappings earlier
tasks stored.  The `typeof job.vm` / `typeof job.createdVolumes` guards are
vacuous here (the inputs are typed). -/
structure BuildJob : Type where
  vmMetaAddr : Nat
  createdVolumes : List (String × Volume)
  mapRequiredNfsVolumes : List (String × JSValue)

/-- Outcome of `buildNfsVolumesMetadata`: early success when there is no
created volume; success carrying the address of the metadata copy it
mutated (stored into `job.updatedVmInternalMetadata`) and the serialized
string; or a thrown `TypeError` (no callback at all) when a created
volume's name has no descriptor in `job.mapRequiredNfsVolumes` — the source
dereferences `.mountpoint` on `undefined`. -/
inductive BuildOutcome : Type where
  | noVolumes (message : String) : BuildOutcome
  | built (updatedAddr : Nat) (stringified : String) : BuildOutcome
  | typeError : BuildOutcome

/-- One resolved metadata entry `{nfsvolume, mountpoint}` as a JSON value:
`nfsvolume` is the volume's `filesystem_path`; a `mountpoint` that is
`undefined` is dropped by `JSON.stringify`. -/
def nfsVolumesMetadataJson (entries : List (String × Option JSValue)) : JSValue :=
  .arr (entries.map (fun e =>
    .obj (("nfsvolume", JSValue.str e.1) ::
      (match e.2 with
       | some mp => [("mountpoint", mp)]
       | none => []))))

/-- The serialized `docker:nfsvolumes` value:
`JSON.stringify(nfsVolumesMetadata)`. -/
def stringifyNfsVolumesMetadata (entries : List (String × Option JSValue)) : String :=
  jsonStringify (nfsVolumesMetadataJson entries)

/-- The entry list `buildNfsVolumesMetadata` pushes, one per created volume
in insertion order, joining the volume with its originally-requested
mountpoint by name: `(volume.filesystem_path,
mapRequiredNfsVolumes[volume.name].mountpoint)`. -/
def nfsVolumesMetadataEntries (createdVolumes : List (String × Volume))
    (mapRequired : List (String × JSValue)) : List (String × Option JSValue) :=
  createdVolumes.map (fun kv =>
    (kv.2.filesystem_path,
     jsGetProp ((objLookup mapRequired kv.2.name).getD .null) "mountpoint"))

/-- The `buildNfsVolumesMetadata` workflow task over the metadata heap.
Faithful to the source order: the deep copy of `job.vm.internal_metadata`
is taken before the empty check; the `docker:nfsvolumes` assignment mutates
only the copy. -/
def buildNfsVolumesMetadata (h : MetaHeap) (job : BuildJob) :
    MetaHeap × BuildOutcome :=
  let copied := h.deepCopy job.vmMetaAddr
  if job.createdVolumes.length = 0 then
    (copied.1,
     .noVolumes "No NFS volume with which to update VM's internal metadata")
  else if job.createdVolumes.any (fun kv =>
      (objLookup job.mapRequiredNfsVolumes kv.2.name).isNone) then
    (copied.1, .typeError)
  else
    let s := stringifyNfsVolumesMetadata
      (nfsVolumesMetadataEntries job.createdVolumes job.mapRequiredNfsVolumes)
    (copied.1.setKey copied.2 "docker:nfsvolumes" (.str s), .built copied.2 s)

/-- One `vmapi.getVm` result inside the metadata-visibility poll:
an error, or a VM whose `internal_metadata` may be absent. -/
inductive VmFetch : Type where
  | err (message : String) : VmFetch
  | ok (internal_metadata : Option (List (String × JSValue))) : VmFetch

/-- The `docker:nfsvolumes` value the poll reads from one fetched VM
(`undefined` when the VM has no metadata object or no such key). -/
def fetchedNfsVolumesField : VmFetch → Option JSValue
  | .err _ => none
  | .ok none => none
  | .ok (some meta) => objLookup meta "docker:nfsvolumes"

/-- The strict-equality test of the poll:
`currentVmNfsVolumesMetadata === stringifiedRequiredNfsVolumesMetadata`.
`===` between a string and a non-string (or `undefined`) is false. -/
def nfsVolumesFieldEquals (current : Option JSValue) (expected : String) : Bool :=
  match current with
  | some (.str s) => s = expected
  | _ => false

/-- The `checkMetadataUpdated` polling loop of
`waitForNfsVolumesMetadataUpdated`: refetch the VM every 1000 ms until the
`docker:nfsvolumes` metadata value strictly equals `expected`; a `getVm`
error stops the loop at once.  `none` after `fuel` fetches means the loop
is still polling. -/
def checkMetadataUpdated (fetch : Nat → VmFetch) (expected : String) :
    Nat → Nat → List PollEvent × Option WaitOutcome
  | 0, _ => ([], none)
  | fuel + 1, i =>
    match fetch i with
    | .err e => ([.fetch i], some (.failure ("Error when getting VM: Error: " ++ e)))
    | .ok meta =>
      if nfsVolumesFieldEquals (fetchedNfsVolumesField (.ok meta)) expected then
        ([.fetch i], some (.success "NFS volumes metadata updated successfully"))
      else
        let rest := checkMetadataUpdated fetch expected fuel (i + 1)
        (.fetch i :: .sleep 1000 :: rest.1, rest.2)

/-- The `waitForNfsVolumesMetadataUpdated` workflow task.  It compares the
fetched metadata against `job.stringifiedRequiredNfsVolumesMetadata` — a
job property this task requires to be a string, and which no task of this
module ever sets (`buildNfsVolumesMetadata` stores its serialization under
`job.updatedVmInternalMetadata` instead).  With no created volumes it
reports success without polling. -/
def waitForNfsVolumesMetadataUpdated (fetch : Nat → VmFetch) (fuel : Nat)
    (stringifiedRequired : Option JSValue)
    (createdVolumes : List (String × Volume)) :
    List PollEvent × Option WaitOutcome :=
  match stringifiedRequired with
  | some (.str expected) =>
    if createdVolumes.length = 0 then
      ([], some (.success "No NFS volume with which to update VM's internal metadata"))
    else
      checkMetadataUpdated fetch expected fuel 0
  | _ =>
    ([], some (.failure "job.stringifiedRequiredNfsVolumesMetadata must be a string"))

/-- A fetch result the readiness poller retries on: no transport error, and
no fetched volume in state `ready`. -/
def fetchNotReady (r : Option JsErr × Option Volume) : Prop :=
  r.1 = none ∧ ∀ v, r.2 = some v → v.state ≠ "ready"

theorem fetchNotReady_iff (r : Option JsErr × Option Volume) :
    fetchNotReady r ↔ checkVolumeReadyStep r = none := by
  rcases r with ⟨e?, v?⟩
  cases e? with
  | some e =>
    simp [fetchNotReady, checkVolumeReadyStep]
  | none =>
    cases v? with
    | none => simp [fetchNotReady, checkVolumeReadyStep]
    | some v =>
      constructor
      · rintro ⟨-, h2⟩
        simp [checkVolumeReadyStep, h2 v rfl]
      · intro h
        refine ⟨rfl, ?_⟩
        rintro v' hv'
        cases hv'
        simp only [checkVolumeReadyStep] at h
        intro hready
        rw [if_pos hready] at h
        cases h

instance fetchNotReadyDecidable (r : Option JsErr × Option Volume) :
    Decidable (fetchNotReady r) :=
  decidable_of_iff _ (fetchNotReady_iff r).symm

theorem fetchNotReady_step {r : Option JsErr × Option Volume}
    (h : fetchNotReady r) : checkVolumeReadyStep r = none :=
  (fetchNotReady_iff r).mp h

/-- The event trace of a poll loop that starts at fetch `s` and converges at
fetch `s + N`: a fetch and a 1000 ms park for each unconverged attempt, then
the final fetch. -/
def pollEventsUpTo (s : Nat) : Nat → List PollEvent
  | 0 => [.fetch s]
  | n + 1 => .fetch s :: .sleep 1000 :: pollEventsUpTo (s + 1) n

/-- The event trace of a poll loop that never converges within its fuel:
a fetch and a 1000 ms park, `fuel` times over. -/
def pollStallEvents (s : Nat) : Nat → List PollEvent
  | 0 => []
  | fuel + 1 => .fetch s :: .sleep 1000 :: pollStallEvents (s + 1) fuel

/-- Number of fetch attempts in a poll event trace. -/
def countFetchEvents (evs : List PollEvent) : Nat :=
  evs.countP (fun ev => match ev with | .fetch _ => true | .sleep _ => false)

theorem countFetchEvents_pollEventsUpTo : ∀ (n s : Nat),
    countFetchEvents (pollEventsUpTo s n) = n + 1 := by
  intro n
  induction n with
  | zero => intro s; rfl
  | succ n ih =>
    intro s
    simp only [pollEventsUpTo, countFetchEvents, List.countP_cons] at *
    simp [ih (s + 1)]

theorem sleep_mem_pollEventsUpTo : ∀ (n s ms : Nat),
    PollEvent.sleep ms ∈ pollEventsUpTo s n → ms = 1000 := by
  intro n
  induction n with
  | zero =>
    intro s ms hm
    simp only [pollEventsUpTo, List.mem_singleton] at hm
    cases hm
  | succ n ih =>
    intro s ms hm
    simp only [pollEventsUpTo, List.mem_cons] at hm
    rcases hm with h | h | h
    · cases h
    · cases h; rfl
    · exact ih (s + 1) ms h

theorem runCheckVolumeReady_stalls (fetch : Nat → Option JsErr × Option Volume) :
    ∀ (fuel s : Nat), (∀ i < fuel, fetchNotReady (fetch (s + i))) →
      runCheckVolumeReady fetch fuel s = (pollStallEvents s fuel, none) := by
  intro fuel
  induction fuel with
  | zero => intro s _; rfl
  | succ fuel ih =>
    intro s h
    have h0 : checkVolumeReadyStep (fetch s) = none :=
      fetchNotReady_step (by simpa using h 0 (Nat.succ_pos fuel))
    have hrest : ∀ i < fuel, fetchNotReady (fetch (s + 1 + i)) := by
      intro i hi
      have := h (i + 1) (Nat.succ_lt_succ hi)
      simpa [Nat.add_assoc, Nat.add_comm 1 i] using this
    simp only [runCheckVolumeReady, h0, ih (s + 1) hrest, pollStallEvents]

theorem runCheckVolumeReady_converges (fetch : Nat → Option JsErr × Option Volume)
    (w : Volume) (hw : w.state = "ready") :
    ∀ (N s : Nat), (∀ i < N, fetchNotReady (fetch (s + i))) →
      fetch (s + N) = (none, some w) →
      ∀ fuel, N + 1 ≤ fuel →
        runCheckVolumeReady fetch fuel s = (pollEventsUpTo s N, some (.ready w)) := by
  intro N
  induction N with
  | zero =>
    intro s _ hready fuel hfuel
    match fuel, hfuel with
    | fuel + 1, _ =>
      simp only [Nat.add_zero] at hready
      simp only [runCheckVolumeReady, hready, checkVolumeReadyStep, if_pos hw,
        pollEventsUpTo]
  | succ N ih =>
    intro s h hready fuel hfuel
    match fuel, hfuel with
    | fuel + 1, hfuel =>
      have h0 : checkVolumeReadyStep (fetch s) = none :=
        fetchNotReady_step (by simpa using h 0 (Nat.succ_pos N))
      have hrest : ∀ i < N, fetchNotReady (fetch (s + 1 + i)) := by
        intro i hi
        have := h (i + 1) (Nat.succ_lt_succ hi)
        simpa [Nat.add_assoc, Nat.add_comm 1 i] using this
      have hready' : fetch (s + 1 + N) = (none, some w) := by
        have harith : s + 1 + N = s + (N + 1) := by omega
        rw [harith]; exact hready
      have hrec := ih (s + 1) hrest hready' fuel (by omega)
      simp only [runCheckVolumeReady, h0, hrec, pollEventsUpTo]

theorem runCheckVolumeReady_propagates_error
    (fetch : Nat → Option JsErr × Option Volume) (e : JsErr) (res : Option Volume) :
    ∀ (k s : Nat), (∀ i < k, fetchNotReady (fetch (s + i))) →
      fetch (s + k) = (some e, res) →
      ∀ fuel, k + 1 ≤ fuel →
        runCheckVolumeReady fetch fuel s = (pollEventsUpTo s k, some (.fetchError e)) := by
  intro k
  induction k with
  | zero =>
    intro s _ herr fuel hfuel
    match fuel, hfuel with
    | fuel + 1, _ =>
      simp only [Nat.add_zero] at herr
      simp only [runCheckVolumeReady, herr, checkVolumeReadyStep, pollEventsUpTo]
  | succ k ih =>
    intro s h herr fuel hfuel
    match fuel, hfuel with
    | fuel + 1, hfuel =>
      have h0 : checkVolumeReadyStep (fetch s) = none :=
        fetchNotReady_step (by simpa using h 0 (Nat.succ_pos k))
      have hrest : ∀ i < k, fetchNotReady (fetch (s + 1 + i)) := by
        intro i hi
        have := h (i + 1) (Nat.succ_lt_succ hi)
        simpa [Nat.add_assoc, Nat.add_comm 1 i] using this
      have herr' : fetch (s + 1 + k) = (some e, res) := by
        have harith : s + 1 + k = s + (k + 1) := by omega
        rw [harith]; exact herr
      have hrec := ih (s + 1) hrest herr' fuel (by omega)
      simp only [runCheckVolumeReady, h0, hrec, pollEventsUpTo]

/-- C5: for every per-volume fetch sequence whose fetches succeed with a
non-ready record for the first N calls and a ready record on call N + 1,
the readiness poller returns that ready record after exactly N + 1 fetches
and not earlier, parking one fixed 1000 ms interval between consecutive
fetches; and if a fetch itself fails, the poller stops at that fetch and
propagates the fetch error without retrying. -/
theorem c5_readiness_poller_convergence
    (fetch : Nat → Option JsErr × Option Volume) (N : Nat) (w : Volume)
    (hnr : ∀ i < N, fetchNotReady (fetch i))
    (hready : fetch N = (none, some w)) (hw : w.state = "ready") :
    (∀ fuel, N + 1 ≤ fuel →
      runCheckVolumeReady fetch fuel 0 = (pollEventsUpTo 0 N, some (.ready w))) ∧
    (∀ fuel, fuel ≤ N → (runCheckVolumeReady fetch fuel 0).2 = none) ∧
    countFetchEvents (pollEventsUpTo 0 N) = N + 1 ∧
    (∀ ms, PollEvent.sleep ms ∈ pollEventsUpTo 0 N → ms = 1000) ∧
    (∀ (fetch2 : Nat → Option JsErr × Option Volume) (k : Nat) (e : JsErr)
       (res : Option Volume) (fuel : Nat),
      (∀ i < k, fetchNotReady (fetch2 i)) → fetch2 k = (some e, res) →
      k + 1 ≤ fuel →
      runCheckVolumeReady fetch2 fuel 0 =
        (pollEventsUpTo 0 k, some (.fetchError e))) := by
  refine ⟨?_, ?_, ?_, ?_, ?_⟩
  · intro fuel hfuel
    exact runCheckVolumeReady_converges fetch w hw N 0
      (by simpa using hnr) (by simpa using hready) fuel hfuel
  · intro fuel hfuel
    have := runCheckVolumeReady_stalls fetch fuel 0
      (fun i hi => by simpa using hnr i (Nat.lt_of_lt_of_le hi hfuel))
    simp [this]
  · exact countFetchEvents_pollEventsUpTo N 0
  · exact fun ms => sleep_mem_pollEventsUpTo N 0 ms
  · intro fetch2 k e res fuel hnr2 herr hfuel
    exact runCheckVolumeReady_propagates_error fetch2 e res k 0
      (by simpa using hnr2) (by simpa using herr) fuel hfuel

/-- Witness for C5 at a concrete fetch sequence: not ready for 2 fetches,
ready on the third. -/
theorem c5_readiness_poller_convergence_witness :
    runCheckVolumeReady
        (fun i => if i < 2 then (none, some ⟨"u1", "data", "o1", "creating", "h:/p"⟩)
                  else (none, some ⟨"u1", "data", "o1", "ready", "h:/p"⟩)) 5 0 =
      (pollEventsUpTo 0 2, some (.ready ⟨"u1", "data", "o1", "ready", "h:/p"⟩)) ∧
    (runCheckVolumeReady
        (fun i => if i < 2 then (none, some ⟨"u1", "data", "o1", "creating", "h:/p"⟩)
                  else (none, some ⟨"u1", "data", "o1", "ready", "h:/p"⟩)) 2 0).2 = none := by
  have h := c5_readiness_poller_convergence
    (fun i => if i < 2 then (none, some ⟨"u1", "data", "o1", "creating", "h:/p"⟩)
              else (none, some ⟨"u1", "data", "o1", "ready", "h:/p"⟩))
    2 ⟨"u1", "data", "o1", "ready", "h:/p"⟩
    (by decide) (by decide) (by decide)
  exact ⟨h.1 5 (by decide), h.2.1 2 (by decide)⟩

/-- C9: the readiness poller checks only for state `ready` and has no
failure-state check: on a fetch sequence whose fetches all succeed but
never yield a ready volume (for example one permanently in state `failed`),
the loop never invokes `done` — for every fuel it is still polling, its
trace an unbroken alternation of fetches and 1000 ms parks. -/
theorem c9_failed_volume_polls_forever
    (fetch : Nat → Option JsErr × Option Volume)
    (h : ∀ i, fetchNotReady (fetch i)) :
    ∀ fuel s, runCheckVolumeReady fetch fuel s = (pollStallEvents s fuel, none) :=
  fun fuel s => runCheckVolumeReady_stalls fetch fuel s (fun i _ => h (s + i))

/-- Witness for C9 at a concrete fetch sequence: a volume permanently in
state `failed` is still being polled after 4 fetches. -/
theorem c9_failed_volume_polls_forever_witness :
    runCheckVolumeReady
        (fun _ => (none, some ⟨"u1", "data", "o1", "failed", "h:/p"⟩)) 4 0 =
      (pollStallEvents 0 4, none) :=
  c9_failed_volume_polls_forever
    (fun _ => (none, some ⟨"u1", "data", "o1", "failed", "h:/p"⟩))
    (fun _ => ⟨rfl, by intro v hv; cases hv; decide⟩) 4 0

theorem overlayNetworkErrCbs_eq_nil {nics : List Nic}
    (h : ∀ n ∈ nics, n ≠ Nic.nonObject) : overlayNetworkErrCbs nics = [] := by
  induction nics with
  | nil => rfl
  | cons n ns ih =>
    have hns := ih (fun m hm => h m (List.mem_cons_of_mem _ hm))
    cases n with
    | nonObject => exact absurd rfl (h _ (List.mem_cons_self _ _))
    | obj t u => simpa [overlayNetworkErrCbs, List.filterMap_cons] using hns

/-- The uuid of the volume the first callback invocation of a
`provisionNfsVolume` run delivered, if any. -/
def resultVolumeUuid (r : List VolapiCall × List (Option JsErr × Option Volume)) :
    Option String :=
  (r.2.head?.bind (·.2)).map (·.uuid)

/-- C3: when `createVolume` reports a duplicate-name conflict
(`VOLUME_ALREADY_EXISTS`), the provisioner falls back to `listVolumes` with
the same name and owner; zero matches or more than one match makes the step
fail with the inconsistent-state error and return no volume record, while
exactly one match makes that volume the step's result. -/
theorem c3_duplicate_lookup_exactly_one
    (env : VolapiEnv) (nics : List Nic) (owner_uuid volumeName : String)
    (e : JsErr) (cv : Option Volume)
    (hnics : ∀ n ∈ nics, n ≠ Nic.nonObject)
    (hcreate : env.createVolume
        ⟨volumeName, owner_uuid, "tritonnfs", overlayNetworksOf nics⟩ = (some e, cv))
    (hdup : e.restCode = some "VOLUME_ALREADY_EXISTS") :
    (∀ volumes, env.listVolumes volumeName owner_uuid = (none, some volumes) →
      volumes.length ≠ 1 →
      provisionNfsVolume env nics owner_uuid volumeName =
        ([.createVolume ⟨volumeName, owner_uuid, "tritonnfs", overlayNetworksOf nics⟩,
          .listVolumes volumeName owner_uuid],
         [(some ⟨none, "There must be either no or one volume with name " ++ volumeName
            ++ " for user " ++ owner_uuid⟩, none)])) ∧
    (env.listVolumes volumeName owner_uuid = (none, none) →
      provisionNfsVolume env nics owner_uuid volumeName =
        ([.createVolume ⟨volumeName, owner_uuid, "tritonnfs", overlayNetworksOf nics⟩,
          .listVolumes volumeName owner_uuid],
         [(some ⟨none, "There must be either no or one volume with name " ++ volumeName
            ++ " for user " ++ owner_uuid⟩, none)])) ∧
    (∀ v, env.listVolumes volumeName owner_uuid = (none, some [v]) →
      provisionNfsVolume env nics owner_uuid volumeName =
        ([.createVolume ⟨volumeName, owner_uuid, "tritonnfs", overlayNetworksOf nics⟩,
          .listVolumes volumeName owner_uuid],
         [(none, some v)])) := by
  have hcbs : overlayNetworkErrCbs nics = [] := overlayNetworkErrCbs_eq_nil hnics
  refine ⟨?_, ?_, ?_⟩
  · intro volumes hlist hlen
    simp only [provisionNfsVolume, hcreate, hdup, hlist, hcbs, if_pos hlen,
      List.nil_append]
    simp
  · intro hlist
    simp only [provisionNfsVolume, hcreate, hdup, hlist, hcbs, List.nil_append]
    simp
  · intro v hlist
    simp only [provisionNfsVolume, hcreate, hdup, hlist, hcbs, List.nil_append]
    simp

/-- Witness for C3 at a concrete service: a duplicate-name conflict followed
by a two-match lookup fails with the inconsistent-state error; followed by a
one-match lookup it returns that volume. -/
theorem c3_duplicate_lookup_exactly_one_witness :
    provisionNfsVolume
        ⟨fun _ => (some ⟨some "VOLUME_ALREADY_EXISTS", "already exists"⟩, none),
         fun _ _ => (none, some [⟨"u1", "data", "o1", "ready", "h:/p"⟩,
                                 ⟨"u2", "data", "o1", "ready", "h:/q"⟩])⟩
        [] "o1" "data" =
      ([.createVolume ⟨"data", "o1", "tritonnfs", []⟩, .listVolumes "data" "o1"],
       [(some ⟨none, "There must be either no or one volume with name data for user o1"⟩,
         none)]) ∧
    provisionNfsVolume
        ⟨fun _ => (some ⟨some "VOLUME_ALREADY_EXISTS", "already exists"⟩, none),
         fun _ _ => (none, some [⟨"u1", "data", "o1", "ready", "h:/p"⟩])⟩
        [] "o1" "data" =
      ([.createVolume ⟨"data", "o1", "tritonnfs", []⟩, .listVolumes "data" "o1"],
       [(none, some ⟨"u1", "data", "o1", "ready", "h:/p"⟩)]) := by
  constructor
  · exact (c3_duplicate_lookup_exactly_one
      ⟨fun _ => (some ⟨some "VOLUME_ALREADY_EXISTS", "already exists"⟩, none),
       fun _ _ => (none, some [⟨"u1", "data", "o1", "ready", "h:/p"⟩,
                               ⟨"u2", "data", "o1", "ready", "h:/q"⟩])⟩
      [] "o1" "data" ⟨some "VOLUME_ALREADY_EXISTS", "already exists"⟩ none
      (by intro n hn; cases hn) rfl rfl).1
      [⟨"u1", "data", "o1", "ready", "h:/p"⟩, ⟨"u2", "data", "o1", "ready", "h:/q"⟩]
      rfl (by decide)
  · exact (c3_duplicate_lookup_exactly_one
      ⟨fun _ => (some ⟨some "VOLUME_ALREADY_EXISTS", "already exists"⟩, none),
       fun _ _ => (none, some [⟨"u1", "data", "o1", "ready", "h:/p"⟩])⟩
      [] "o1" "data" ⟨some "VOLUME_ALREADY_EXISTS", "already exists"⟩ none
      (by intro n hn; cases hn) rfl rfl).2.2
      ⟨"u1", "data", "o1", "ready", "h:/p"⟩ rfl

/-- C4: provisioning is idempotent.  A first invocation whose create call
succeeds returns the created volume; a second invocation for the same VM and
volume name, against a service where that volume now exists (the create call
answering `VOLUME_ALREADY_EXISTS` and the name-and-owner lookup returning
exactly the volume the first invocation created), resolves through the
lookup path — `createVolume` then `listVolumes`, no second creation — and
yields the same resulting volume UUID. -/
theorem c4_provision_idempotent
    (env1 env2 : VolapiEnv) (nics : List Nic) (owner_uuid volumeName : String)
    (v1 : Volume) (dupErr : JsErr) (cv : Option Volume)
    (hnics : ∀ n ∈ nics, n ≠ Nic.nonObject)
    (h1 : env1.createVolume
        ⟨volumeName, owner_uuid, "tritonnfs", overlayNetworksOf nics⟩ = (none, some v1))
    (h2create : env2.createVolume
        ⟨volumeName, owner_uuid, "tritonnfs", overlayNetworksOf nics⟩ = (some dupErr, cv))
    (h2dup : dupErr.restCode = some "VOLUME_ALREADY_EXISTS")
    (h2list : env2.listVolumes volumeName owner_uuid = (none, some [v1])) :
    provisionNfsVolume env1 nics owner_uuid volumeName =
      ([.createVolume ⟨volumeName, owner_uuid, "tritonnfs", overlayNetworksOf nics⟩],
       [(none, some v1)]) ∧
    provisionNfsVolume env2 nics owner_uuid volumeName =
      ([.createVolume ⟨volumeName, owner_uuid, "tritonnfs", overlayNetworksOf nics⟩,
        .listVolumes volumeName owner_uuid],
       [(none, some v1)]) ∧
    resultVolumeUuid (provisionNfsVolume env2 nics owner_uuid volumeName) =
      resultVolumeUuid (provisionNfsVolume env1 nics owner_uuid volumeName) ∧
    resultVolumeUuid (provisionNfsVolume env1 nics owner_uuid volumeName) =
      some v1.uuid := by
  have hcbs : overlayNetworkErrCbs nics = [] := overlayNetworkErrCbs_eq_nil hnics
  have r1 : provisionNfsVolume env1 nics owner_uuid volumeName =
      ([.createVolume ⟨volumeName, owner_uuid, "tritonnfs", overlayNetworksOf nics⟩],
       [(none, some v1)]) := by
    simp only [provisionNfsVolume, h1, hcbs, List.nil_append]
  have r2 : provisionNfsVolume env2 nics owner_uuid volumeName =
      ([.createVolume ⟨volumeName, owner_uuid, "tritonnfs", overlayNetworksOf nics⟩,
        .listVolumes volumeName owner_uuid],
       [(none, some v1)]) := by
    simp only [provisionNfsVolume, h2create, h2dup, h2list, hcbs, List.nil_append]
    simp
  refine ⟨r1, r2, ?_, ?_⟩
  · rw [r1, r2]; rfl
  · rw [r1]; rfl

/-- Witness for C4 at a concrete pair of service states: the volume exists
after the first run, and the second run resolves it by lookup to the same
UUID. -/
theorem c4_provision_idempotent_witness :
    provisionNfsVolume
        ⟨fun _ => (none, some ⟨"u1", "data", "o1", "creating", "h:/p"⟩),
         fun _ _ => (none, some [])⟩ [] "o1" "data" =
      ([.createVolume ⟨"data", "o1", "tritonnfs", []⟩],
       [(none, some ⟨"u1", "data", "o1", "creating", "h:/p"⟩)]) ∧
    provisionNfsVolume
        ⟨fun _ => (some ⟨some "VOLUME_ALREADY_EXISTS", "already exists"⟩, none),
         fun _ _ => (none, some [⟨"u1", "data", "o1", "creating", "h:/p"⟩])⟩
        [] "o1" "data" =
      ([.createVolume ⟨"data", "o1", "tritonnfs", []⟩, .listVolumes "data" "o1"],
       [(none, some ⟨"u1", "data", "o1", "creating", "h:/p"⟩)]) := by
  have h := c4_provision_idempotent
    ⟨fun _ => (none, some ⟨"u1", "data", "o1", "creating", "h:/p"⟩),
     fun _ _ => (none, some [])⟩
    ⟨fun _ => (some ⟨some "VOLUME_ALREADY_EXISTS", "already exists"⟩, none),
     fun _ _ => (none, some [⟨"u1", "data", "o1", "creating", "h:/p"⟩])⟩
    [] "o1" "data" ⟨"u1", "data", "o1", "creating", "h:/p"⟩
    ⟨some "VOLUME_ALREADY_EXISTS", "already exists"⟩ none
    (by intro n hn; cases hn) rfl rfl rfl rfl
  exact ⟨h.1, h.2.1⟩

/-- Whether a nic satisfies the source's overlay test:
`network.nic_tag && network.nic_tag.indexOf('sdc_overlay/') === 0`. -/
def isOverlayTagged : Nic → Bool
  | .obj (some t) _ => t ≠ "" ∧ hasOverlayTagMarker t
  | _ => false

/-- C7 counterexample: the claim says a VM with no overlay interfaces yields
an *empty* networks list, but `Array.prototype.map` never drops entries — a
VM with one non-overlay nic yields the one-entry list `[undefined]`, not
`[]`. -/
theorem c7_networks_list_counterexample :
    isOverlayTagged (Nic.obj (some "external") (some "net-1")) = false ∧
    overlayNetworksOf [Nic.obj (some "external") (some "net-1")] = [none] ∧
    overlayNetworksOf [Nic.obj (some "external") (some "net-1")] ≠
      ([] : List (Option String)) := by
  refine ⟨by decide, rfl, by decide⟩

/-- C7 (amended): the networks list has exactly one entry per nic; only
overlay-tagged interfaces contribute their network UUID, an object
interface lacking the tag contributes an `undefined` entry (so a VM with no
overlay interfaces yields an all-`undefined` list of the nics' length,
empty only when there is no nic at all), and an object interface never
causes an error callback. -/
theorem c7_overlay_networks_only (nics : List Nic)
    (hobj : ∀ n ∈ nics, n ≠ Nic.nonObject) :
    (overlayNetworksOf nics).length = nics.length ∧
    overlayNetworkErrCbs nics = [] ∧
    (∀ n ∈ nics, isOverlayTagged n = false → getOverlayNetworkValue n = none) ∧
    (∀ t u, isOverlayTagged (Nic.obj (some t) u) = true →
      getOverlayNetworkValue (Nic.obj (some t) u) = u) ∧
    ((∀ n ∈ nics, isOverlayTagged n = false) →
      overlayNetworksOf nics = List.replicate nics.length none) := by
  refine ⟨List.length_map _ _, overlayNetworkErrCbs_eq_nil hobj, ?_, ?_, ?_⟩
  · intro n _ hn
    cases n with
    | nonObject => rfl
    | obj t? u =>
      cases t? with
      | none => rfl
      | some t =>
        simp only [isOverlayTagged, decide_eq_false_iff_not] at hn
        simp only [getOverlayNetworkValue, if_neg hn]
  · intro t u ht
    simp only [isOverlayTagged, decide_eq_true_eq] at ht
    simp only [getOverlayNetworkValue, if_pos ht]
  · intro hall
    induction nics with
    | nil => rfl
    | cons n ns ih =>
      have hn : getOverlayNetworkValue n = none := by
        have hfalse := hall n (List.mem_cons_self _ _)
        cases n with
        | nonObject => rfl
        | obj t? u =>
          cases t? with
          | none => rfl
          | some t =>
            simp only [isOverlayTagged, decide_eq_false_iff_not] at hfalse
            simp only [getOverlayNetworkValue, if_neg hfalse]
      have hns := ih (fun m hm => hobj m (List.mem_cons_of_mem _ hm))
        (fun m hm => hall m (List.mem_cons_of_mem _ hm))
      simp only [overlayNetworksOf, List.map_cons, List.length_cons,
        List.replicate_succ, hn]
      exact congrArg _ hns

/-- Witness for C7 at a concrete nic list: one external-tagged nic and one
overlay-tagged nic. -/
theorem c7_overlay_networks_only_witness :
    overlayNetworksOf [Nic.obj (some "external") (some "net-1")] = [none] ∧
    getOverlayNetworkValue (Nic.obj (some "sdc_overlay/customer") (some "net-2")) =
      some "net-2" ∧
    overlayNetworkErrCbs [Nic.obj (some "external") (some "net-1")] = [] := by
  have h := c7_overlay_networks_only [Nic.obj (some "external") (some "net-1")]
    (by intro n hn; simp at hn; subst hn; decide)
  refine ⟨?_, ?_, h.2.1⟩
  · have := h.2.2.2.2 (by intro n hn; simp at hn; subst hn; decide)
    simpa using this
  · exact h.2.2.2.1 "sdc_overlay/customer" (some "net-2") (by decide)

/-- C8: the Metadata Reconciler never mutates the VM record's in-memory
`internal_metadata` mapping: for every heap and job whose VM metadata cell
is allocated, the cell at `job.vm.internal_metadata` holds the same mapping
after the step as before it, and on the `built` outcome the produced delta
lives at a distinct, freshly-allocated address whose content is the
original mapping changed only at the `docker:nfsvolumes` key. -/
theorem c8_reconciler_no_mutation (h : MetaHeap) (job : BuildJob)
    (halloc : job.vmMetaAddr < h.next) :
    (buildNfsVolumesMetadata h job).1.cells job.vmMetaAddr =
      h.cells job.vmMetaAddr ∧
    (∀ a s, (buildNfsVolumesMetadata h job).2 = .built a s →
      a ≠ job.vmMetaAddr ∧
      (buildNfsVolumesMetadata h job).1.cells a =
        objSet (h.cells job.vmMetaAddr) "docker:nfsvolumes" (.str s)) := by
  have hne : job.vmMetaAddr ≠ h.next := Nat.ne_of_lt halloc
  unfold buildNfsVolumesMetadata MetaHeap.deepCopy MetaHeap.setKey
  split
  · exact ⟨by simp [hne], by intro a s hcontra; cases hcontra⟩
  · split
    · exact ⟨by simp [hne], by intro a s hcontra; cases hcontra⟩
    · constructor
      · simp [hne]
      · intro a s heq
        injection heq with ha hs
        subst ha
        subst hs
        refine ⟨hne.symm, ?_⟩
        simp

/-- Witness for C8 at a concrete heap and job: one created volume joined
with its requested mountpoint. -/
theorem c8_reconciler_no_mutation_witness :
    (buildNfsVolumesMetadata
        ⟨fun _ => [("other", .str "kept")], 1⟩
        ⟨0, [("u1", ⟨"u1", "data", "o1", "ready", "h:/p"⟩)],
         [("data", .obj [("name", .str "data"), ("mountpoint", .str "/data")])]⟩).1.cells 0 =
      [("other", .str "kept")] ∧
    (buildNfsVolumesMetadata
        ⟨fun _ => [("other", .str "kept")], 1⟩
        ⟨0, [("u1", ⟨"u1", "data", "o1", "ready", "h:/p"⟩)],
         [("data", .obj [("name", .str "data"), ("mountpoint", .str "/data")])]⟩).1.cells 1 =
      objSet [("other", .str "kept")] "docker:nfsvolumes"
        (.str (stringifyNfsVolumesMetadata [("h:/p", some (.str "/data"))])) := by
  have h := c8_reconciler_no_mutation
    ⟨fun _ => [("other", .str "kept")], 1⟩
    ⟨0, [("u1", ⟨"u1", "data", "o1", "ready", "h:/p"⟩)],
     [("data", .obj [("name", .str "data"), ("mountpoint", .str "/data")])]⟩
    (by decide)
  exact ⟨h.1, (h.2 1 (stringifyNfsVolumesMetadata [("h:/p", some (.str "/data"))]) rfl).2⟩

/-- C1 counterexample: the claim says an *absent*
`docker:nfs_volumes_required` field yields an empty mapping and a
successful saga, but with the field absent `parsedRequiredNfsVolumes`
stays undefined, the `Array.isArray` check fails, extraction reports the
array-shape error and the provisioning task aborts. -/
theorem c1_absent_field_counterexample :
    (loadRequiredNfsVolumes (fun _ => none) none
        (some ⟨"vm-1", "o1", some [], []⟩) "vm-1").callbacks =
      [some "docker:nfs_volumes_required internal metadata must represent an array"] ∧
    (loadRequiredNfsVolumes (fun _ => none) none
        (some ⟨"vm-1", "o1", some [], []⟩) "vm-1").mapRequired = none ∧
    (provisionNfsVolumesStep (fun _ => none)
        ⟨fun _ => (none, none), fun _ _ => (none, none)⟩
        none (some ⟨"vm-1", "o1", some [], []⟩) "vm-1" "o1").2 =
      .failure ("Could not provision volumes, reason: Error: "
        ++ "docker:nfs_volumes_required internal metadata must represent an array") := by
  refine ⟨by decide, rfl, by decide⟩

/-- The CNAPI update request `setupUpdateVmNfsVolumesMetadataRequest`
prepares on the job: endpoint, method, action, server uuid, job id, and the
payload `{set_internal_metadata: job.updatedVmInternalMetadata}` (here the
heap address of the metadata delta). -/
structure UpdateVmRequest : Type where
  endpoint : String
  requestMethod : String
  action : String
  server_uuid : String
  jobid : String
  set_internal_metadata : Nat
deriving Repr, DecidableEq

/-- The value of `job.updatedVmInternalMetadata` after
`buildNfsVolumesMetadata` ran, given its value before (the chain starts it
`undefined`): only the `built` outcome reaches the line that assigns it —
the no-volumes path and the thrown `TypeError` return first. -/
def updatedVmInternalMetadataAfter (before : Option Nat) :
    BuildOutcome → Option Nat
  | .built a _ => some a
  | .noVolumes _ => before
  | .typeError => before

/-- The `setup_update_vm_nfs_volumes_metadata_request` workflow task, the
chain task that follows the Reconciler.  Its guard
`job.updatedVmInternalMetadata === null || typeof(...) !== 'object'` fails
in particular when the property is still `undefined` (`none` here) because
`buildNfsVolumesMetadata` took its no-volumes path; otherwise it sets the
CNAPI request up and reports success. -/
def setupUpdateVmNfsVolumesMetadataRequest
    (updatedVmInternalMetadata : Option Nat)
    (server_uuid vm_uuid jobUuid : String) :
    Option String × Option (UpdateVmRequest × String) :=
  match updatedVmInternalMetadata with
  | none => (some "job.updatedVmInternalMetadata must be an object", none)
  | some addr =>
    (none,
     some (⟨"/servers/" ++ server_uuid ++ "/vms/" ++ vm_uuid ++ "/update",
            "post", "update", server_uuid, jobUuid, addr⟩,
           "Request has been setup!"))

/-- C1 (amended): for every VM whose `docker:nfs_volumes_required` field is
the JSON serialization of an explicitly-empty list (`"[]"`), extraction
returns the empty mapping with a single successful callback invocation, and
the provisioning, readiness-wait, reconcile and metadata-poll steps each
short-circuit to success with zero storage-management calls; the saga as a
whole nevertheless does *not* complete successfully: the Reconciler's
no-volumes path returns before setting `job.updatedVmInternalMetadata`, so
the next chain task, `setup_update_vm_nfs_volumes_metadata_request`, fails
with `job.updatedVmInternalMetadata must be an object` and the workflow
aborts.  A VM with the field *absent* fails even earlier, at extraction,
with the array-shape error. -/
theorem c1_empty_list_no_dependencies
    (parse : String → Option JSValue) (env : VolapiEnv)
    (fetchFor : String → Nat → Option JsErr × Option Volume)
    (fetchVm : Nat → VmFetch) (fuel : Nat) (h : MetaHeap)
    (vm : VM) (meta : List (String × JSValue))
    (mapRequired : List (String × JSValue)) (a : Nat)
    (vmUuid owner_uuid expected server_uuid jobUuid : String)
    (hmeta : vm.internal_metadata = some meta)
    (hfield : objLookup meta "docker:nfs_volumes_required" = some (.str "[]"))
    (hparse : parse "[]" = some (.arr [])) :
    loadRequiredNfsVolumes parse none (some vm) vmUuid =
      ⟨[none], some []⟩ ∧
    provisionNfsVolumesStep parse env none (some vm) vmUuid owner_uuid =
      ([], .success "All volumes provisioned" []) ∧
    waitForNfsVolumeProvisions fetchFor fuel owner_uuid none [] =
      ([], [], some (.success "No required NFS volume to wait for")) ∧
    (buildNfsVolumesMetadata h ⟨a, [], mapRequired⟩).2 =
      .noVolumes "No NFS volume with which to update VM's internal metadata" ∧
    waitForNfsVolumesMetadataUpdated fetchVm fuel (some (.str expected)) [] =
      ([], some (.success "No NFS volume with which to update VM's internal metadata")) ∧
    updatedVmInternalMetadataAfter none
        (buildNfsVolumesMetadata h ⟨a, [], mapRequired⟩).2 = none ∧
    setupUpdateVmNfsVolumesMetadataRequest
        (updatedVmInternalMetadataAfter none
          (buildNfsVolumesMetadata h ⟨a, [], mapRequired⟩).2)
        server_uuid vmUuid jobUuid =
      (some "job.updatedVmInternalMetadata must be an object", none) := by
  have hload : loadRequiredNfsVolumes parse none (some vm) vmUuid =
      ⟨[none], some []⟩ := by
    simp only [loadRequiredNfsVolumes, hmeta, hfield, hparse,
      requiredVolumeElemCbs, buildMapRequiredNfsVolumes]
    simp
  refine ⟨hload, ?_, rfl, rfl, rfl, rfl, rfl⟩
  simp only [provisionNfsVolumesStep, hload, provisionRequiredNfsVolumes]
  simp

/-- Witness for C1 at a concrete VM whose field is the string `"[]"`: the
extraction and provisioning steps short-circuit, and the setup task that
follows the Reconciler fails its guard. -/
theorem c1_empty_list_no_dependencies_witness :
    loadRequiredNfsVolumes
        (fun s => if s = "[]" then some (.arr []) else none) none
        (some ⟨"vm-1", "o1", some [("docker:nfs_volumes_required", .str "[]")], []⟩)
        "vm-1" = ⟨[none], some []⟩ ∧
    provisionNfsVolumesStep
        (fun s => if s = "[]" then some (.arr []) else none)
        ⟨fun _ => (none, none), fun _ _ => (none, none)⟩ none
        (some ⟨"vm-1", "o1", some [("docker:nfs_volumes_required", .str "[]")], []⟩)
        "vm-1" "o1" = ([], .success "All volumes provisioned" []) ∧
    setupUpdateVmNfsVolumesMetadataRequest
        (updatedVmInternalMetadataAfter none
          (buildNfsVolumesMetadata ⟨fun _ => [], 0⟩ ⟨0, [], []⟩).2)
        "srv-1" "vm-1" "job-1" =
      (some "job.updatedVmInternalMetadata must be an object", none) := by
  have hw := c1_empty_list_no_dependencies
    (fun s => if s = "[]" then some (.arr []) else none)
    ⟨fun _ => (none, none), fun _ _ => (none, none)⟩
    (fun _ _ => (none, none)) (fun _ => .ok none) 0 ⟨fun _ => [], 0⟩
    ⟨"vm-1", "o1", some [("docker:nfs_volumes_required", .str "[]")], []⟩
    [("docker:nfs_volumes_required", .str "[]")] [] 0 "vm-1" "o1" "" "srv-1" "job-1"
    rfl rfl rfl
  exact ⟨hw.1, hw.2.1, hw.2.2.2.2.2.2⟩

theorem requiredVolumeElemCbs_head (g : Option String) :
    ∀ (elems : List JSValue) (e : JSValue), e ∈ elems → jsIsObjectLike e = false →
      (requiredVolumeElemCbs elems ++ [g]).head? =
        some (some "requiredVolume must be an object") := by
  intro elems
  induction elems with
  | nil => intro e he _; cases he
  | cons e0 rest ih =>
    intro e he hne
    cases hobj : jsIsObjectLike e0 with
    | false =>
      simp [requiredVolumeElemCbs, List.filterMap_cons, hobj]
    | true =>
      have herest : e ∈ rest := by
        rcases List.mem_cons.mp he with rfl | hr
        · rw [hobj] at hne; cases hne
        · exact hr
      simp only [requiredVolumeElemCbs, List.filterMap_cons, hobj, if_pos]
      exact ih e herest hne

/-- C6 counterexample: the claim says each malformed value is reported
exactly once through the completion callback, but for a string that does
not parse as JSON the `catch` block invokes the callback and falls through
to the `Array.isArray` check, which invokes it a second time; and for an
array containing a non-object element the error invocation inside
`forEach` is followed by the final *success* invocation. -/
theorem c6_double_callback_counterexample :
    (loadRequiredNfsVolumes (fun _ => none) none
        (some ⟨"vm-1", "o1", some [("docker:nfs_volumes_required", .str "notjson")], []⟩)
        "vm-1").callbacks =
      [some "Could not parse docker:nfs_volumes_required internal metadata",
       some "docker:nfs_volumes_required internal metadata must represent an array"] ∧
    (loadRequiredNfsVolumes (fun _ => none) none
        (some ⟨"vm-1", "o1", some [("docker:nfs_volumes_required", .str "notjson")], []⟩)
        "vm-1").callbacks.length ≠ 1 ∧
    (loadRequiredNfsVolumes (fun s => if s = "[42]" then some (.arr [.num 42]) else none)
        none
        (some ⟨"vm-1", "o1", some [("docker:nfs_volumes_required", .str "[42]")], []⟩)
        "vm-1").callbacks =
      [some "requiredVolume must be an object", none] := by
  refine ⟨by decide, by decide, by decide⟩

/-- C6 (amended): for every malformed `docker:nfs_volumes_required` value —
present but not a string, a truthy string that does not parse as JSON, JSON
that is not an array, or an array containing a non-object element — the
extraction step's *first* callback invocation carries the corresponding
structural error, and the saga's provisioning task aborts with it, making
zero calls to the storage-management service.  The error is not always
reported exactly once: the unparsable-string case invokes the callback a
second time with the array-shape error, and the non-object-element case
follows the error with a success invocation. -/
theorem c6_malformed_field_errors
    (parse : String → Option JSValue) (env : VolapiEnv)
    (vmUuid owner_uuid : String) :
    (∀ (vm : VM) (meta : List (String × JSValue)) (v : JSValue),
      vm.internal_metadata = some meta →
      objLookup meta "docker:nfs_volumes_required" = some v →
      (∀ s, v ≠ .str s) →
      loadRequiredNfsVolumes parse none (some vm) vmUuid =
        ⟨[some ("docker:nfs_volumes_required internal_metadata property must be a "
           ++ "string if present")], none⟩ ∧
      provisionNfsVolumesStep parse env none (some vm) vmUuid owner_uuid =
        ([], .failure ("Could not provision volumes, reason: Error: "
          ++ ("docker:nfs_volumes_required internal_metadata property must be a "
            ++ "string if present")))) ∧
    (∀ (vm : VM) (meta : List (String × JSValue)) (s : String),
      vm.internal_metadata = some meta →
      objLookup meta "docker:nfs_volumes_required" = some (.str s) →
      s ≠ "" → parse s = none →
      loadRequiredNfsVolumes parse none (some vm) vmUuid =
        ⟨[some "Could not parse docker:nfs_volumes_required internal metadata",
          some "docker:nfs_volumes_required internal metadata must represent an array"],
         none⟩ ∧
      provisionNfsVolumesStep parse env none (some vm) vmUuid owner_uuid =
        ([], .failure ("Could not provision volumes, reason: Error: "
          ++ "Could not parse docker:nfs_volumes_required internal metadata"))) ∧
    (∀ (vm : VM) (meta : List (String × JSValue)) (s : String) (j : JSValue),
      vm.internal_metadata = some meta →
      objLookup meta "docker:nfs_volumes_required" = some (.str s) →
      s ≠ "" → parse s = some j → (∀ es, j ≠ .arr es) →
      loadRequiredNfsVolumes parse none (some vm) vmUuid =
        ⟨[some "docker:nfs_volumes_required internal metadata must represent an array"],
         none⟩ ∧
      provisionNfsVolumesStep parse env none (some vm) vmUuid owner_uuid =
        ([], .failure ("Could not provision volumes, reason: Error: "
          ++ "docker:nfs_volumes_required internal metadata must represent an array"))) ∧
    (∀ (vm : VM) (meta : List (String × JSValue)) (s : String)
       (elems : List JSValue) (e : JSValue),
      vm.internal_metadata = some meta →
      objLookup meta "docker:nfs_volumes_required" = some (.str s) →
      s ≠ "" → parse s = some (.arr elems) →
      e ∈ elems → jsIsObjectLike e = false →
      (loadRequiredNfsVolumes parse none (some vm) vmUuid).callbacks.head? =
        some (some "requiredVolume must be an object") ∧
      provisionNfsVolumesStep parse env none (some vm) vmUuid owner_uuid =
        ([], .failure ("Could not provision volumes, reason: Error: "
          ++ "requiredVolume must be an object"))) := by
  refine ⟨?_, ?_, ?_, ?_⟩
  · intro vm meta v hmeta hfield hv
    have hload : loadRequiredNfsVolumes parse none (some vm) vmUuid =
        ⟨[some ("docker:nfs_volumes_required internal_metadata property must be a "
           ++ "string if present")], none⟩ := by
      cases v with
      | str s => exact absurd rfl (hv s)
      | null => simp only [loadRequiredNfsVolumes, hmeta, hfield]
      | bool b => simp only [loadRequiredNfsVolumes, hmeta, hfield]
      | num n => simp only [loadRequiredNfsVolumes, hmeta, hfield]
      | arr es => simp only [loadRequiredNfsVolumes, hmeta, hfield]
      | obj fs => simp only [loadRequiredNfsVolumes, hmeta, hfield]
    exact ⟨hload, by simp only [provisionNfsVolumesStep, hload, List.head?]⟩
  · intro vm meta s hmeta hfield hs hparse
    have hload : loadRequiredNfsVolumes parse none (some vm) vmUuid =
        ⟨[some "Could not parse docker:nfs_volumes_required internal metadata",
          some "docker:nfs_volumes_required internal metadata must represent an array"],
         none⟩ := by
      simp only [loadRequiredNfsVolumes, hmeta, hfield, if_neg hs, hparse]
    exact ⟨hload, by simp only [provisionNfsVolumesStep, hload, List.head?]⟩
  · intro vm meta s j hmeta hfield hs hparse hj
    have hload : loadRequiredNfsVolumes parse none (some vm) vmUuid =
        ⟨[some "docker:nfs_volumes_required internal metadata must represent an array"],
         none⟩ := by
      cases j with
      | arr es => exact absurd rfl (hj es)
      | null => simp only [loadRequiredNfsVolumes, hmeta, hfield, if_neg hs, hparse]
      | bool b => simp only [loadRequiredNfsVolumes, hmeta, hfield, if_neg hs, hparse]
      | num n => simp only [loadRequiredNfsVolumes, hmeta, hfield, if_neg hs, hparse]
      | str s2 => simp only [loadRequiredNfsVolumes, hmeta, hfield, if_neg hs, hparse]
      | obj fs => simp only [loadRequiredNfsVolumes, hmeta, hfield, if_neg hs, hparse]
    exact ⟨hload, by simp only [provisionNfsVolumesStep, hload, List.head?]⟩
  · intro vm meta s elems e hmeta hfield hs hparse he hobj
    have hload : loadRequiredNfsVolumes parse none (some vm) vmUuid =
        ⟨requiredVolumeElemCbs elems ++ [none],
         some (buildMapRequiredNfsVolumes elems)⟩ := by
      simp only [loadRequiredNfsVolumes, hmeta, hfield, if_neg hs, hparse]
    have hhead : (loadRequiredNfsVolumes parse none (some vm) vmUuid).callbacks.head? =
        some (some "requiredVolume must be an object") := by
      rw [hload]
      exact requiredVolumeElemCbs_head none elems e he hobj
    refine ⟨hhead, ?_⟩
    simp only [provisionNfsVolumesStep, hhead]

/-- Witness for C6 at a concrete VM whose field is an unparsable string. -/
theorem c6_malformed_field_errors_witness :
    loadRequiredNfsVolumes (fun _ => none) none
        (some ⟨"vm-1", "o1", some [("docker:nfs_volumes_required", .str "notjson")], []⟩)
        "vm-1" =
      ⟨[some "Could not parse docker:nfs_volumes_required internal metadata",
        some "docker:nfs_volumes_required internal metadata must represent an array"],
       none⟩ ∧
    provisionNfsVolumesStep (fun _ => none)
        ⟨fun _ => (none, none), fun _ _ => (none, none)⟩ none
        (some ⟨"vm-1", "o1", some [("docker:nfs_volumes_required", .str "notjson")], []⟩)
        "vm-1" "o1" =
      ([], .failure ("Could not provision volumes, reason: Error: "
        ++ "Could not parse docker:nfs_volumes_required internal metadata")) := by
  exact (c6_malformed_field_errors (fun _ => none)
      ⟨fun _ => (none, none), fun _ _ => (none, none)⟩ "vm-1" "o1").2.1
    ⟨"vm-1", "o1", some [("docker:nfs_volumes_required", .str "notjson")], []⟩
    [("docker:nfs_volumes_required", .str "notjson")] "notjson"
    rfl rfl (by decide) rfl

theorem checkMetadataUpdated_first (fetch : Nat → VmFetch) (expected : String)
    (i : Nat)
    (heq : nfsVolumesFieldEquals (fetchedNfsVolumesField (fetch i)) expected = true) :
    ∀ fuel, 1 ≤ fuel → checkMetadataUpdated fetch expected fuel i =
      ([.fetch i], some (.success "NFS volumes metadata updated successfully")) := by
  intro fuel hfuel
  match fuel, hfuel with
  | fuel + 1, _ =>
    cases hf : fetch i with
    | err m =>
      rw [hf] at heq
      simp [fetchedNfsVolumesField, nfsVolumesFieldEquals] at heq
    | ok meta =>
      rw [hf] at heq
      simp only [checkMetadataUpdated, hf, heq, if_pos]

theorem checkMetadataUpdated_stalls (fetch : Nat → VmFetch) (expected : String) :
    ∀ (fuel i : Nat),
      (∀ j, i ≤ j → j < i + fuel →
        (∀ m, fetch j ≠ .err m) ∧
        nfsVolumesFieldEquals (fetchedNfsVolumesField (fetch j)) expected = false) →
      (checkMetadataUpdated fetch expected fuel i).2 = none := by
  intro fuel
  induction fuel with
  | zero => intro i _; rfl
  | succ fuel ih =>
    intro i h
    obtain ⟨hnoerr, hne⟩ := h i (Nat.le_refl i) (by omega)
    cases hf : fetch i with
    | err m => exact absurd hf (hnoerr m)
    | ok meta =>
      rw [hf] at hne
      have hrest := ih (i + 1) (fun j hj1 hj2 => h j (by omega) (by omega))
      simp only [checkMetadataUpdated, hf, hne, Bool.false_eq_true, if_false, hrest]

theorem checkMetadataUpdated_success_requires_match
    (fetch : Nat → VmFetch) (expected : String) :
    ∀ (fuel i : Nat) (m : String),
      (checkMetadataUpdated fetch expected fuel i).2 = some (.success m) →
      ∃ j, i ≤ j ∧ j < i + fuel ∧
        nfsVolumesFieldEquals (fetchedNfsVolumesField (fetch j)) expected = true := by
  intro fuel
  induction fuel with
  | zero => intro i m hcontra; cases hcontra
  | succ fuel ih =>
    intro i m hsucc
    cases hf : fetch i with
    | err em =>
      rw [show checkMetadataUpdated fetch expected (fuel + 1) i =
        ([.fetch i], some (.failure ("Error when getting VM: Error: " ++ em)))
        from by simp only [checkMetadataUpdated, hf]] at hsucc
      cases hsucc
    | ok meta =>
      by_cases heq : nfsVolumesFieldEquals (fetchedNfsVolumesField (.ok meta)) expected
      · exact ⟨i, Nat.le_refl i, by omega, by rw [hf]; exact heq⟩
      · have hne : nfsVolumesFieldEquals (fetchedNfsVolumesField (VmFetch.ok meta))
            expected = false := by
          simpa using heq
        rw [show (checkMetadataUpdated fetch expected (fuel + 1) i).2 =
          (checkMetadataUpdated fetch expected fuel (i + 1)).2
          from by simp only [checkMetadataUpdated, hf, hne, Bool.false_eq_true, if_false]]
          at hsucc
        obtain ⟨j, hj1, hj2, hj3⟩ := ih (i + 1) m hsucc
        exact ⟨j, by omega, by omega, hj3⟩

/-- C2 counterexample: the poll step compares the fetched field against
`job.stringifiedRequiredNfsVolumesMetadata`, a property the Reconciler
never sets (it stores its serialization in
`job.updatedVmInternalMetadata` instead).  On a job whose compared property
is the unrelated string "bogus", the poll terminates successfully at a
fetch whose field is "bogus" even though that field differs from the string
the Reconciler wrote — refuting the claimed "succeeds iff the fetched field
equals the Reconciler's serialized string". -/
theorem c2_poll_compares_unset_field_counterexample :
    (buildNfsVolumesMetadata ⟨fun _ => [], 1⟩
        ⟨0, [("u1", ⟨"u1", "data", "o1", "ready", "h:/p"⟩)],
         [("data", .obj [("name", .str "data"), ("mountpoint", .str "/data")])]⟩).2 =
      .built 1 (stringifyNfsVolumesMetadata [("h:/p", some (.str "/data"))]) ∧
    stringifyNfsVolumesMetadata [("h:/p", some (.str "/data"))] ≠ "bogus" ∧
    nfsVolumesFieldEquals
      (fetchedNfsVolumesField (.ok (some [("docker:nfsvolumes", .str "bogus")])))
      (stringifyNfsVolumesMetadata [("h:/p", some (.str "/data"))]) = false ∧
    (waitForNfsVolumesMetadataUpdated
        (fun _ => .ok (some [("docker:nfsvolumes", .str "bogus")])) 1
        (some (.str "bogus")) [("u1", ⟨"u1", "data", "o1", "ready", "h:/p"⟩)]).2 =
      some (.success "NFS volumes metadata updated successfully") := by
  refine ⟨rfl, by decide, by decide, by decide⟩

/-- C2 (amended): the string the Reconciler writes under
`docker:nfsvolumes` is the JSON serialization of the
`{nfsvolume, mountpoint}` entry list, but the metadata-visibility poll
compares the re-fetched field by byte-exact string equality against
`job.stringifiedRequiredNfsVolumesMetadata`, a property no task of this
module sets; only when an external step has set that property to the
Reconciler's serialized string does the poll (with created volumes
present) terminate successfully exactly on a fetch whose field equals
that string. -/
theorem c2_serialization_poll_agreement
    (h : MetaHeap) (job : BuildJob) (heap2 : MetaHeap) (a : Nat) (s : String)
    (fetch : Nat → VmFetch) (createdVolumes : List (String × Volume))
    (hbuild : buildNfsVolumesMetadata h job = (heap2, .built a s))
    (hne : createdVolumes.length ≠ 0) :
    s = stringifyNfsVolumesMetadata
        (nfsVolumesMetadataEntries job.createdVolumes job.mapRequiredNfsVolumes) ∧
    (∀ fuel, 1 ≤ fuel →
      nfsVolumesFieldEquals (fetchedNfsVolumesField (fetch 0)) s = true →
      waitForNfsVolumesMetadataUpdated fetch fuel (some (.str s)) createdVolumes =
        ([.fetch 0], some (.success "NFS volumes metadata updated successfully"))) ∧
    (∀ fuel,
      (∀ j < fuel, (∀ m, fetch j ≠ .err m) ∧
        nfsVolumesFieldEquals (fetchedNfsVolumesField (fetch j)) s = false) →
      (waitForNfsVolumesMetadataUpdated fetch fuel (some (.str s))
        createdVolumes).2 = none) ∧
    (∀ fuel m,
      (waitForNfsVolumesMetadataUpdated fetch fuel (some (.str s))
        createdVolumes).2 = some (.success m) →
      ∃ j, j < fuel ∧
        nfsVolumesFieldEquals (fetchedNfsVolumesField (fetch j)) s = true) := by
  have hwait : ∀ fuel, waitForNfsVolumesMetadataUpdated fetch fuel (some (.str s))
      createdVolumes = checkMetadataUpdated fetch s fuel 0 := by
    intro fuel
    simp only [waitForNfsVolumesMetadataUpdated, if_neg hne]
  refine ⟨?_, ?_, ?_, ?_⟩
  · unfold buildNfsVolumesMetadata at hbuild
    split at hbuild
    · cases (Prod.mk.injEq .. ▸ hbuild).2
    · split at hbuild
      · cases (Prod.mk.injEq .. ▸ hbuild).2
      · injection hbuild with h1 h2
        injection h2 with h3 h4
        exact h4.symm
  · intro fuel hfuel heq
    rw [hwait fuel]
    exact checkMetadataUpdated_first fetch s 0 heq fuel hfuel
  · intro fuel hstall
    rw [hwait fuel]
    exact checkMetadataUpdated_stalls fetch s fuel 0
      (fun j hj1 hj2 => hstall j (by omega))
  · intro fuel m hsucc
    rw [hwait fuel] at hsucc
    obtain ⟨j, hj1, hj2, hj3⟩ :=
      checkMetadataUpdated_success_requires_match fetch s fuel 0 m hsucc
    exact ⟨j, by omega, hj3⟩

/-- Witness for C2 at a concrete job and fetch sequence whose first fetch
already carries the Reconciler's exact string. -/
theorem c2_serialization_poll_agreement_witness :
    waitForNfsVolumesMetadataUpdated
        (fun _ => .ok (some [("docker:nfsvolumes",
          .str (stringifyNfsVolumesMetadata [("h:/p", some (.str "/data"))]))])) 1
        (some (.str (stringifyNfsVolumesMetadata [("h:/p", some (.str "/data"))])))
        [("u1", ⟨"u1", "data", "o1", "ready", "h:/p"⟩)] =
      ([.fetch 0], some (.success "NFS volumes metadata updated successfully")) := by
  exact (c2_serialization_poll_agreement ⟨fun _ => [], 1⟩
      ⟨0, [("u1", ⟨"u1", "data", "o1", "ready", "h:/p"⟩)],
       [("data", .obj [("name", .str "data"), ("mountpoint", .str "/data")])]⟩
      (buildNfsVolumesMetadata ⟨fun _ => [], 1⟩
        ⟨0, [("u1", ⟨"u1", "data", "o1", "ready", "h:/p"⟩)],
         [("data", .obj [("name", .str "data"), ("mountpoint", .str "/data")])]⟩).1
      1 (stringifyNfsVolumesMetadata [("h:/p", some (.str "/data"))])
      (fun _ => .ok (some [("docker:nfsvolumes",
        .str (stringifyNfsVolumesMetadata [("h:/p", some (.str "/data"))]))]))
      [("u1", ⟨"u1", "data", "o1", "ready", "h:/p"⟩)]
      rfl (by decide)).2.1 1 (by decide) (by decide)

theorem list_all_map {α β : Type} (f : α → β) (p : β → Bool) :
    ∀ l : List α, (l.map f).all p = l.all (fun a => p (f a)) := by
  intro l
  induction l with
  | nil => rfl
  | cons a l ih => simp only [List.map_cons, List.all_cons, ih]

theorem list_any_map {α β : Type} (f : α → β) (p : β → Bool) :
    ∀ l : List α, (l.map f).any p = l.any (fun a => p (f a)) := by
  intro l
  induction l with
  | nil => rfl
  | cons a l ih => simp only [List.map_cons, List.any_cons, ih]

theorem objSet_cons_ne {α : Type} (k0 k : String) (v0 v : α) (m : List (String × α))
    (hne : k0 ≠ k) : objSet ((k0, v0) :: m) k v = (k0, v0) :: objSet m k v := by
  simp [objSet, hne]

theorem objSet_cons_eq {α : Type} (k : String) (v0 v : α) (m : List (String × α)) :
    objSet ((k, v0) :: m) k v = (k, v) :: m := by
  simp [objSet]

theorem foldl_ready_through (r : String → Volume) :
    ∀ (ks : List String) (k0 : String) (w : Volume) (m : List (String × Volume)),
      (∀ k ∈ ks, (r k).uuid = k ∧ k ≠ k0) →
      ks.foldl (fun acc k => objSet acc (r k).uuid (r k)) ((k0, w) :: m) =
        (k0, w) :: ks.foldl (fun acc k => objSet acc (r k).uuid (r k)) m := by
  intro ks
  induction ks with
  | nil => intro k0 w m _; rfl
  | cons k ks ih =>
    intro k0 w m h
    obtain ⟨huuid, hne⟩ := h k (List.mem_cons_self _ _)
    simp only [List.foldl_cons]
    rw [huuid, objSet_cons_ne k0 k w (r k) m (Ne.symm hne)]
    exact ih k0 w (objSet m k (r k))
      (fun k2 hk2 => h k2 (List.mem_cons_of_mem _ hk2))

theorem foldl_ready_replace (r : String → Volume) :
    ∀ (m : List (String × Volume)), (m.map (·.1)).Nodup →
      (∀ k ∈ m.map (·.1), (r k).uuid = k) →
      (m.map (·.1)).foldl (fun acc k => objSet acc (r k).uuid (r k)) m =
        m.map (fun kv => (kv.1, r kv.1)) := by
  intro m
  induction m with
  | nil => intro _ _; rfl
  | cons kv m ih =>
    obtain ⟨k0, v0⟩ := kv
    intro hnodup huuids
    have hnodup2 : (k0 :: m.map (·.1)).Nodup := by
      simpa using hnodup
    obtain ⟨hnotin, hrest⟩ := List.nodup_cons.mp hnodup2
    have huuid0 : (r k0).uuid = k0 := huuids k0 (by simp)
    simp only [List.map_cons, List.foldl_cons]
    rw [huuid0, objSet_cons_eq]
    rw [foldl_ready_through r (m.map (·.1)) k0 (r k0) m
      (fun k hk => ⟨huuids k (by simp [hk]), fun he => hnotin (he ▸ hk)⟩)]
    rw [ih hrest (fun k hk => huuids k (by simp [hk]))]

/-- C10: whenever the readiness-wait task completes successfully with a
non-empty created-volumes map — each per-key `getVolume` sequence
converging (within the given fuel) on a ready record carrying the
requested uuid — every entry of `job.createdVolumes` has been replaced by
the freshly fetched ready record, keyed by that record's own uuid, so
every record the Reconciler subsequently reads has state `ready`. -/
theorem c10_created_volumes_all_ready
    (fetchFor : String → Nat → Option JsErr × Option Volume) (fuel : Nat)
    (owner_uuid : String) (createdVolumes : List (String × Volume))
    (N : String → Nat) (r : String → Volume)
    (hnodup : (createdVolumes.map (·.1)).Nodup)
    (hne : createdVolumes.length ≠ 0)
    (hconv : ∀ k ∈ createdVolumes.map (·.1),
      (∀ i < N k, fetchNotReady (fetchFor k i)) ∧
      fetchFor k (N k) = (none, some (r k)) ∧
      (r k).state = "ready" ∧ (r k).uuid = k ∧ N k + 1 ≤ fuel) :
    (waitForNfsVolumeProvisions fetchFor fuel owner_uuid none createdVolumes).2 =
      (createdVolumes.map (fun kv => (kv.1, r kv.1)),
       some (.success "All required volumes ready")) ∧
    (∀ kv ∈ createdVolumes.map (fun kv => (kv.1, r kv.1)),
      kv.2.state = "ready" ∧ kv.2.uuid = kv.1 ∧
      fetchFor kv.1 (N kv.1) = (none, some kv.2)) := by
  have hrun : ∀ k ∈ createdVolumes.map (·.1),
      runCheckVolumeReady (fetchFor k) fuel 0 =
        (pollEventsUpTo 0 (N k), some (.ready (r k))) := by
    intro k hk
    obtain ⟨hnr, hfetch, hstate, _, hfuel⟩ := hconv k hk
    exact runCheckVolumeReady_converges (fetchFor k) (r k) hstate (N k) 0
      (by simpa using hnr) (by simpa using hfetch) fuel hfuel
  have hloops : (createdVolumes.map (·.1)).map
        (fun k => (k, runCheckVolumeReady (fetchFor k) fuel 0)) =
      (createdVolumes.map (·.1)).map
        (fun k => (k, (pollEventsUpTo 0 (N k), some (PollStop.ready (r k))))) :=
    List.map_congr_left (fun k hk => by rw [hrun k hk])
  have hall : (((createdVolumes.map (·.1)).map
        (fun k => (k, (pollEventsUpTo 0 (N k), some (PollStop.ready (r k)))))).all
        (fun kl => kl.2.2.isSome)) = true := by
    rw [list_all_map]
    exact List.all_eq_true.mpr (fun k _ => rfl)
  have hany : (((createdVolumes.map (·.1)).map
        (fun k => (k, (pollEventsUpTo 0 (N k), some (PollStop.ready (r k)))))).any
        (fun kl => match kl.2.2 with
          | some (.fetchError _) => true
          | _ => false)) = false := by
    rw [list_any_map]
    refine List.any_eq_false.mpr ?_
    intro k _
    exact Bool.false_ne_true
  have hfold : (((createdVolumes.map (·.1)).map
        (fun k => (k, (pollEventsUpTo 0 (N k), some (PollStop.ready (r k)))))).foldl
        (fun m kl => match kl.2.2 with
          | some (.ready v) => objSet m v.uuid v
          | _ => m) createdVolumes) =
      createdVolumes.map (fun kv => (kv.1, r kv.1)) := by
    rw [List.foldl_map]
    exact foldl_ready_replace r createdVolumes hnodup
      (fun k hk => (hconv k hk).2.2.2.1)
  refine ⟨?_, ?_⟩
  · simp only [waitForNfsVolumeProvisions, requiredNfsVolumesBad,
      Bool.false_eq_true, if_false, if_neg hne, hloops, hall, hany, hfold,
      if_true]
  · intro kv hkv
    obtain ⟨kv0, hkv0, rfl⟩ := List.mem_map.mp hkv
    have hk : kv0.1 ∈ createdVolumes.map (·.1) := List.mem_map_of_mem _ hkv0
    obtain ⟨_, hfetch, hstate, huuid, _⟩ := hconv kv0.1 hk
    exact ⟨hstate, huuid, hfetch⟩

/-- Witness for C10 at a concrete single-volume map whose fetch sequence is
ready at the second call. -/
theorem c10_created_volumes_all_ready_witness :
    (waitForNfsVolumeProvisions
        (fun _ i => if i = 0 then (none, some ⟨"u1", "data", "o1", "creating", "h:/p"⟩)
                    else (none, some ⟨"u1", "data", "o1", "ready", "h:/p"⟩))
        3 "o1" none [("u1", ⟨"u1", "data", "o1", "creating", "h:/p"⟩)]).2 =
      ([("u1", ⟨"u1", "data", "o1", "ready", "h:/p"⟩)],
       some (.success "All required volumes ready")) := by
  have h := c10_created_volumes_all_ready
    (fun _ i => if i = 0 then (none, some ⟨"u1", "data", "o1", "creating", "h:/p"⟩)
                else (none, some ⟨"u1", "data", "o1", "ready", "h:/p"⟩))
    3 "o1" [("u1", ⟨"u1", "data", "o1", "creating", "h:/p"⟩)]
    (fun _ => 1) (fun _ => ⟨"u1", "data", "o1", "ready", "h:/p"⟩)
    (by decide) (by decide)
    (by
      intro k hk
      simp only [List.map_cons, List.map_nil, List.mem_singleton] at hk
      subst hk
      exact ⟨by decide, rfl, rfl, rfl, by decide⟩)
  exact h.1
